import Mathlib

/-!
Verification of the SSH connection manager (`mcp_ssh_server/ssh_manager.py`)
and the multi-command tool handler (`mcp_ssh_server/server.py`).

Shallow embedding conventions:
* Time is measured in ticks of 0.1 s (`Nat`): the interactive polling sleep
  (0.1 s) is 1 tick, the drain grace period (0.5 s) is 5 ticks, the eviction
  thresholds 3600 s / 1800 s are 36000 / 18000 ticks, the default timeout
  30 s is 300 ticks.
* The connection pool (`self.connections : dict`) is an association list in
  insertion order; Python dict keys are unique, so theorems that need
  uniqueness take a `Nodup` hypothesis on the key list.
* Transport and remote-host behaviour (what `paramiko` does) is passed in
  as explicit oracle values: what the probe's transport reports, what an
  `exec_command` call yields, which channel `close()` calls raise, which
  key parsers accept a key string, what an interactive shell has buffered
  at each poll.  Each operation is a pure function of the pool plus these
  oracles.
* Exceptions are modelled by `Except SSHError`; the `SSHError` constructors
  mirror the classes of `mcp_ssh_server/exceptions.py`.  The `details`
  dictionaries attached by the Python code are not modelled; only the
  error class and its primary fields are.
-/

/-- `list.startswith`-style check over characters, pattern second; an empty
pattern always matches. -/
def startsWithChars : List Char → List Char → Bool
  | _, [] => true
  | [], _ :: _ => false
  | a :: as, b :: bs => a = b && startsWithChars as bs

/-- Occurrence of `pat` anywhere in `hay`, as in Python's `pat in hay`. -/
def subOccurs : List Char → List Char → Bool
  | [], pat => pat.isEmpty
  | hay@(_ :: rest), pat => startsWithChars hay pat || subOccurs rest pat

/-- Python's `str.__contains__`: substring anywhere, empty pattern matches. -/
def strContains (s pat : String) : Bool :=
  subOccurs s.toList pat.toList

/-- Python's `str.strip()`: drop leading and trailing whitespace. -/
def stripStr (s : String) : String :=
  String.mk (((s.toList.dropWhile Char.isWhitespace).reverse.dropWhile
    Char.isWhitespace).reverse)

/-- Mirror of the relevant `exceptions.py` classes.  `timeoutError` keeps
the `timeout` and `operation` constructor arguments of `SSHTimeoutError`;
the waited-for prompt travels in the message, as in the source. -/
inductive SSHError where
  | connectionError (message : String) (host : Option String) (port : Option Nat)
  | authenticationError (message : String) (username : Option String) (auth_method : Option String)
  | commandError (message : String) (command : Option String)
  | timeoutError (message : String) (timeout : Option Nat) (operation : Option String)
  | fileOperationError (message : String) (local_path remote_path operation : Option String)
  deriving DecidableEq

/-- Mirror of the `SSHConnection` dataclass.  The `client` and `sftp`
handles are live transport objects; only the observable fact "the SFTP
sub-channel is present" (`sftp` is not `None`) is kept, and `tunnels`
keeps only the tunnel ids. -/
structure SSHConnection where
  id : String
  host : String
  port : Nat
  username : String
  created_at : Nat
  last_used : Nat
  is_connected : Bool
  command_history : List String
  tunnels : List String
  sftp_present : Bool
  deriving DecidableEq

/-- Mirror of the `CommandResult` dataclass. -/
structure CommandResult where
  command : String
  stdout : String
  stderr : String
  exit_code : Int
  execution_time : Nat
  success : Bool
  deriving DecidableEq

/-- The pool `self.connections`, in insertion order. -/
abbrev Pool := List (String × SSHConnection)

/-- `self.connections.get(connection_id)` / `connection_id in self.connections`. -/
def lookupConn : Pool → String → Option SSHConnection
  | [], _ => none
  | kv :: rest, i => if kv.1 = i then some kv.2 else lookupConn rest i

/-- In-place mutation of the pooled connection object with the given id. -/
def updateConn : Pool → String → (SSHConnection → SSHConnection) → Pool
  | [], _, _ => []
  | kv :: rest, i, f => (if kv.1 = i then (kv.1, f kv.2) else kv) :: updateConn rest i f

/-- `del self.connections[connection_id]`. -/
def removeConn : Pool → String → Pool
  | [], _ => []
  | kv :: rest, i => if kv.1 = i then removeConn rest i else kv :: removeConn rest i

/-- `get_connection`: returns the connection (if pooled) with `last_used`
refreshed, together with the mutated pool. -/
def get_connection (pool : Pool) (id : String) (now : Nat) :
    Option SSHConnection × Pool :=
  match lookupConn pool id with
  | none => (none, pool)
  | some c =>
      (some { c with last_used := now },
       updateConn pool id (fun x => { x with last_used := now }))

/-- Oracle for one `test_connection` probe: the transport may be absent,
present but inactive, any step of the probe may raise, or the round-trip
`echo test` may succeed yielding the given raw stdout. -/
inductive ProbeBehavior where
  | noTransport
  | inactive
  | raises
  | output (s : String)
  deriving DecidableEq

/-- `test_connection`: transport must report active and `echo test` must
come back as exactly `test` after stripping.  Only a raised exception sets
`is_connected := false`. -/
def test_connection (pool : Pool) (id : String) (now : Nat)
    (probe : ProbeBehavior) : Bool × Pool :=
  match get_connection pool id now with
  | (none, p) => (false, p)
  | (some _, p) =>
      match probe with
      | .noTransport => (false, p)
      | .inactive => (false, p)
      | .raises => (false, updateConn p id (fun c => { c with is_connected := false }))
      | .output s => (decide (stripStr s = "test"), p)

/-- A probe oracle that lets `test_connection` succeed. -/
def probeOk : ProbeBehavior → Bool
  | .output s => decide (stripStr s = "test")
  | _ => false

/-- Which `close()` calls raise during a `disconnect`. -/
structure CloseBehavior where
  tunnelCloseFails : String → Bool
  sftpCloseFails : Bool
  clientCloseFails : Bool

/-- A `CloseBehavior` where every close succeeds. -/
def behNone : CloseBehavior :=
  { tunnelCloseFails := fun _ => false, sftpCloseFails := false, clientCloseFails := false }

/-- `disconnect`: unknown id is a `False` no-op; otherwise tunnels are
closed under per-tunnel `try/except` (failures logged, never propagated),
then the SFTP sub-channel and the client are closed inside the outer
`try` — if either raises, the `except` branch still removes the entry but
returns `False`. -/
def disconnect (pool : Pool) (id : String) (beh : CloseBehavior) : Bool × Pool :=
  match lookupConn pool id with
  | none => (false, pool)
  | some c =>
      let pool' := removeConn pool id
      if c.sftp_present && beh.sftpCloseFails then (false, pool')
      else if beh.clientCloseFails then (false, pool')
      else (true, pool')

/-- `_cleanup_old_connections` staleness test: older than 1 hour, idle for
more than 30 minutes, or flagged disconnected (ticks of 0.1 s). -/
def isStale (now : Nat) (c : SSHConnection) : Bool :=
  decide (36000 < now - c.created_at) || decide (18000 < now - c.last_used)
    || !c.is_connected

/-- `_cleanup_old_connections`: collect the stale ids, then disconnect
each (errors swallowed; `disconnect` never fails to remove). -/
def cleanup_old (pool : Pool) (now : Nat) (beh : String → CloseBehavior) : Pool :=
  let staleIds := (pool.filter (fun kv => isStale now kv.2)).map Prod.fst
  staleIds.foldl (fun p i => (disconnect p i (beh i)).2) pool

/-- The four key classes tried by `_parse_private_key`. -/
inductive KeyType where
  | RSA
  | DSS
  | ECDSA
  | Ed25519
  deriving DecidableEq

/-- The fixed priority order `[RSAKey, DSSKey, ECDSAKey, Ed25519Key]`. -/
def keyTypeOrder : List KeyType := [.RSA, .DSS, .ECDSA, .Ed25519]

/-- `_parse_private_key`: try each format in order until one parses
(`parses` says which formats accept the given key string); if none does,
raise `SSHAuthenticationError("Invalid private key format")`. -/
def parse_private_key (parses : KeyType → Bool) : Except SSHError KeyType :=
  match keyTypeOrder.find? parses with
  | some k => .ok k
  | none => .error (.authenticationError "Invalid private key format" none (some "key"))

/-- Oracle for the `client.connect()` + `open_sftp()` part of
`create_connection`: which exception class (if any) the attempt raises. -/
inductive ConnectOutcome where
  | ok
  | authException
  | sshException
  | socketError
  | otherError
  deriving DecidableEq

/-- The `try` body of `create_connection` from `client.connect(...)` on,
plus the `except` clauses that re-wrap each exception class. -/
def connectAttempt (pool : Pool) (host username : String) (password : Option String)
    (port : Nat) (newId : String) (outcome : ConnectOutcome) (now : Nat) :
    Except SSHError String × Pool :=
  match outcome with
  | .ok =>
      (.ok newId,
       pool ++ [(newId,
         { id := newId, host := host, port := port, username := username,
           created_at := now, last_used := now, is_connected := true,
           command_history := [], tunnels := [], sftp_present := true })])
  | .authException =>
      (.error (.authenticationError s!"Authentication failed for {username}@{host}"
        (some username) (some (if password.isSome then "password" else "key"))), pool)
  | .sshException =>
      (.error (.connectionError s!"SSH connection failed to {host}:{port}"
        (some host) (some port)), pool)
  | .socketError =>
      (.error (.connectionError s!"Network error connecting to {host}:{port}"
        (some host) (some port)), pool)
  | .otherError =>
      (.error (.connectionError s!"Unexpected error connecting to {host}:{port}"
        (some host) (some port)), pool)

/-- `create_connection`.  At capacity it first runs
`_cleanup_old_connections` and re-checks.  The private key (when given) is
parsed inside the `try`, so a `SSHAuthenticationError` raised by
`_parse_private_key` matches none of the `paramiko`/`socket` clauses and
falls through to `except Exception`, which re-raises it as the generic
`SSHConnectionError("Unexpected error connecting ...")`. -/
def create_connection (maxConns : Nat) (pool : Pool) (host username : String)
    (password : Option String) (private_key : Option (KeyType → Bool))
    (port : Nat) (newId : String) (outcome : ConnectOutcome) (now : Nat)
    (beh : String → CloseBehavior) : Except SSHError String × Pool :=
  let pool1 := if maxConns ≤ pool.length then cleanup_old pool now beh else pool
  if maxConns ≤ pool1.length then
    (.error (.connectionError "Maximum number of connections reached" none none), pool1)
  else
    match private_key with
    | some parses =>
        match parse_private_key parses with
        | .error _ =>
            (.error (.connectionError s!"Unexpected error connecting to {host}:{port}"
              (some host) (some port)), pool1)
        | .ok _ => connectAttempt pool1 host username password port newId outcome now
    | none => connectAttempt pool1 host username password port newId outcome now

/-- History append of `execute_command`: append, then keep the last 100
entries (`command_history[-100:]`) when the length went past 100. -/
def appendHistory (h : List String) (cmd : String) : List String :=
  let h2 := h ++ [cmd]
  if 100 < h2.length then h2.drop (h2.length - 100) else h2

/-- Oracle for one `exec_command` call: normal completion with captured
stdout/stderr/exit status/elapsed ticks, or one of the exception classes
the `except` clauses distinguish. -/
inductive ExecOutcome where
  | ok (stdout stderr : String) (exit_code : Int) (elapsed : Nat)
  | sshException
  | socketTimeout
  | otherError
  deriving DecidableEq

/-- `execute_command`: lookup, liveness probe, then the one-shot exec.
On success the literal command is appended to the history (trimmed to the
last 100) and `success = (exit_code == 0)`. -/
def execute_command (pool : Pool) (id cmd : String) (timeout : Nat)
    (probe : ProbeBehavior) (outcome : ExecOutcome) (now : Nat) :
    Except SSHError CommandResult × Pool :=
  match get_connection pool id now with
  | (none, p) =>
      (.error (.connectionError s!"Connection {id} not found" none none), p)
  | (some _, p) =>
      let (alive, p2) := test_connection p id now probe
      if !alive then
        (.error (.connectionError s!"Connection {id} is not active" none none), p2)
      else
        match outcome with
        | .ok out err code el =>
            (.ok { command := cmd, stdout := out, stderr := err, exit_code := code,
                   execution_time := el, success := code == 0 },
             updateConn p2 id (fun c =>
               { c with command_history := appendHistory c.command_history cmd }))
        | .sshException =>
            (.error (.commandError s!"SSH error executing command: {cmd}" (some cmd)), p2)
        | .socketTimeout =>
            (.error (.timeoutError s!"Command timed out after {timeout} seconds: {cmd}"
              (some timeout) (some "command_execution")), p2)
        | .otherError =>
            (.error (.commandError s!"Error executing command: {cmd}" (some cmd)), p2)

/-- The message of the interactive timeout raise. -/
def interactiveTimeoutMsg (prompt : String) : String :=
  s!"Interactive command timed out waiting for prompt: {prompt}"

/-- One `while True` wait of the interactive loop.  `stream` scripts what
`channel.recv(1024)` yields per iteration (`none` = `recv_ready()` was
false).  The prompt is only tested against the accumulated output right
after a chunk arrives; each iteration then sleeps one tick and raises the
timeout once the elapsed ticks exceed the deadline.  An exhausted stream
means no data ever arrives again, so the deadline check eventually fires. -/
def waitForPrompt (prompt : String) (timeout : Nat) :
    String → List (Option String) → Nat →
    Except SSHError (String × List (Option String) × Nat)
  | _, [], _ =>
      .error (.timeoutError (interactiveTimeoutMsg prompt) (some timeout)
        (some "interactive_command"))
  | output, some d :: rest, t =>
      let output' := output ++ d
      if strContains output' prompt then .ok (output', rest, t)
      else if timeout < t + 1 then
        .error (.timeoutError (interactiveTimeoutMsg prompt) (some timeout)
          (some "interactive_command"))
      else waitForPrompt prompt timeout output' rest (t + 1)
  | output, none :: rest, t =>
      if timeout < t + 1 then
        .error (.timeoutError (interactiveTimeoutMsg prompt) (some timeout)
          (some "interactive_command"))
      else waitForPrompt prompt timeout output rest (t + 1)

/-- The `for i, prompt in enumerate(expect_prompts)` loop: wait for each
prompt, send the response, sleep one tick. -/
def interactLoop (timeout : Nat) :
    List String → List String → String → List (Option String) → Nat →
    Except SSHError (String × List (Option String) × Nat)
  | [], _, output, stream, t => .ok (output, stream, t)
  | _ :: _, [], output, stream, t => .ok (output, stream, t)
  | p :: ps, _ :: rs, output, stream, t =>
      match waitForPrompt p timeout output stream t with
      | .error e => .error e
      | .ok (output', stream', t') => interactLoop timeout ps rs output' stream' (t' + 1)

/-- Final drain: `while channel.recv_ready(): output += channel.recv(1024)`. -/
def drainReady : List (Option String) → String → String
  | some d :: rest, out => drainReady rest (out ++ d)
  | _, out => out

/-- The channel interaction of `execute_interactive_command` (inside its
`try`): run the prompt/response loop from time 0, then the 0.5 s grace
sleep and the drain.  Returns the accumulated output and elapsed ticks, or
the internally raised `SSHTimeoutError`. -/
def runInteractive (prompts responses : List String)
    (stream : List (Option String)) (timeout : Nat) :
    Except SSHError (String × Nat) :=
  match interactLoop timeout prompts responses "" stream 0 with
  | .error e => .error e
  | .ok (out, rest, t) => .ok (drainReady rest out, t + 5)

/-- `execute_interactive_command`: lookup, liveness probe, the
prompt/response count check (outside the `try`, so its `SSHCommandError`
propagates as such), then the interactive session.  Any exception from the
`try` body — including the internally raised `SSHTimeoutError` — is caught
by `except Exception` and re-raised as a generic `SSHCommandError`.  On
success the history gets the `INTERACTIVE:`-marked command appended with
no trimming, and the result reports exit status 0 and success. -/
def execute_interactive_command (pool : Pool) (id cmd : String)
    (expect_prompts responses : List String) (timeout : Nat)
    (probe : ProbeBehavior) (stream : List (Option String)) (now : Nat) :
    Except SSHError CommandResult × Pool :=
  match get_connection pool id now with
  | (none, p) =>
      (.error (.connectionError s!"Connection {id} not found" none none), p)
  | (some _, p) =>
      let (alive, p2) := test_connection p id now probe
      if !alive then
        (.error (.connectionError s!"Connection {id} is not active" none none), p2)
      else if expect_prompts.length ≠ responses.length then
        (.error (.commandError "Number of expect prompts must match number of responses"
          (some cmd)), p2)
      else
        match runInteractive expect_prompts responses stream timeout with
        | .error _ =>
            (.error (.commandError s!"Error executing interactive command: {cmd}"
              (some cmd)), p2)
        | .ok (out, t) =>
            (.ok { command := cmd, stdout := out, stderr := "", exit_code := 0,
                   execution_time := t, success := true },
             updateConn p2 id (fun c =>
               { c with command_history := c.command_history ++ ["INTERACTIVE: " ++ cmd] }))

/-- Oracle for one `sftp.stat` call. -/
inductive StatOutcome where
  | found
  | fileNotFound
  | otherError
  deriving DecidableEq

/-- `file_exists`: raises `SSHConnectionError` when the id is unknown or
the SFTP sub-channel is absent; otherwise `stat` success means `True` and
both `FileNotFoundError` and any other exception mean `False`. -/
def file_exists (pool : Pool) (id : String) (now : Nat) (st : StatOutcome) :
    Except SSHError Bool × Pool :=
  match get_connection pool id now with
  | (none, p) =>
      (.error (.connectionError s!"Connection {id} not found or SFTP not available"
        none none), p)
  | (some c, p) =>
      if !c.sftp_present then
        (.error (.connectionError s!"Connection {id} not found or SFTP not available"
          none none), p)
      else
        match st with
        | .found => (.ok true, p)
        | .fileNotFound => (.ok false, p)
        | .otherError => (.ok false, p)

/-- The fixed battery of `get_system_info` diagnostic commands. -/
def sysInfoCommands : List (String × String) :=
  [("hostname", "hostname"), ("kernel", "uname -r"), ("os", "uname -o"),
   ("architecture", "uname -m"), ("uptime", "uptime"), ("memory", "free -h"),
   ("disk", "df -h"), ("cpu", "lscpu | head -20")]

/-- The `for key, command in commands.items()` loop of `get_system_info`:
run each command with a 10 s timeout (`oracle i` scripts the probe and
exec outcome of the i-th call); a successful result contributes its
stripped stdout, anything else contributes `"N/A"`. -/
def get_system_info_aux (id : String) (oracle : Nat → ProbeBehavior × ExecOutcome)
    (now : Nat) :
    Pool → List (String × String) → Nat → List (String × String) × Pool
  | pool, [], _ => ([], pool)
  | pool, (key, cmd) :: rest, i =>
      let step := execute_command pool id cmd 100 (oracle i).1 (oracle i).2 now
      let v :=
        match step.1 with
        | .ok r => if r.success then stripStr r.stdout else "N/A"
        | .error _ => "N/A"
      let next := get_system_info_aux id oracle now step.2 rest (i + 1)
      ((key, v) :: next.1, next.2)

/-- `get_system_info`. -/
def get_system_info (pool : Pool) (id : String)
    (oracle : Nat → ProbeBehavior × ExecOutcome) (now : Nat) :
    List (String × String) × Pool :=
  get_system_info_aux id oracle now pool sysInfoCommands 0

/-- `_handle_execute_multi` (`server.py`): run the commands strictly in
order, each through `execute_command` with a 30 s timeout; append each
produced result; on a result with `success = False` under `stop_on_error`
stop after appending it; on a raised `SSHBaseError` append nothing and
stop under `stop_on_error`, otherwise continue. -/
def handle_execute_multi :
    Pool → String → List String → (Nat → ProbeBehavior × ExecOutcome) → Bool → Nat →
    List CommandResult × Pool
  | pool, _, [], _, _, _ => ([], pool)
  | pool, id, c :: cs, oracle, stopOnError, now =>
      match execute_command pool id c 300 (oracle 0).1 (oracle 0).2 now with
      | (.ok r, p') =>
          if !r.success && stopOnError then ([r], p')
          else
            let rest := handle_execute_multi p' id cs (fun i => oracle (i + 1)) stopOnError now
            (r :: rest.1, rest.2)
      | (.error _, p') =>
          if stopOnError then ([], p')
          else handle_execute_multi p' id cs (fun i => oracle (i + 1)) stopOnError now

/-! ### Concrete instances used by witnesses and counterexamples -/

/-- A freshly created pooled connection. -/
def connFresh : SSHConnection :=
  { id := "c1", host := "h", port := 22, username := "u", created_at := 0,
    last_used := 0, is_connected := true, command_history := [], tunnels := [],
    sftp_present := true }

/-- A pool holding the single fresh connection. -/
def pool1 : Pool := [("c1", connFresh)]

/-- The fresh connection with a command history already at the 100-entry cap. -/
def conn100 : SSHConnection := { connFresh with command_history := List.replicate 100 "x" }

/-- A pool holding the full-history connection. -/
def pool100 : Pool := [("c1", conn100)]

/-- Oracle for a three-command batch whose second command exits nonzero. -/
def oracleW : Nat → ProbeBehavior × ExecOutcome := fun i =>
  if i = 0 then (.output "test", .ok "o1" "" 0 1)
  else if i = 1 then (.output "test", .ok "" "boom" 1 1)
  else (.output "test", .ok "" "" 0 1)

/-- Oracle under which every diagnostic command fails. -/
def oracleNA : Nat → ProbeBehavior × ExecOutcome := fun _ => (.noTransport, .otherError)

/-! ### Pool lemmas -/

theorem lookupConn_updateConn (pool : Pool) (id : String) (f : SSHConnection → SSHConnection) :
    lookupConn (updateConn pool id f) id = (lookupConn pool id).map f := by
  induction pool with
  | nil => rfl
  | cons kv rest ih =>
      by_cases h : kv.1 = id <;> simp [updateConn, lookupConn, h, ih]

theorem updateConn_updateConn (pool : Pool) (id : String)
    (f g : SSHConnection → SSHConnection) :
    updateConn (updateConn pool id f) id g = updateConn pool id (fun x => g (f x)) := by
  induction pool with
  | nil => rfl
  | cons kv rest ih =>
      by_cases h : kv.1 = id <;> simp [updateConn, h, ih]

theorem removeConn_eq_filter (pool : Pool) (id : String) :
    removeConn pool id = pool.filter (fun kv => decide (kv.1 ≠ id)) := by
  induction pool with
  | nil => rfl
  | cons kv rest ih =>
      by_cases h : kv.1 = id <;> simp [removeConn, h, ih, List.filter]

theorem lookupConn_removeConn (pool : Pool) (id : String) :
    lookupConn (removeConn pool id) id = none := by
  induction pool with
  | nil => rfl
  | cons kv rest ih =>
      by_cases h : kv.1 = id <;> simp [removeConn, lookupConn, h, ih]

theorem lookupConn_none_forall (pool : Pool) (id : String)
    (h : lookupConn pool id = none) : ∀ kv ∈ pool, kv.1 ≠ id := by
  induction pool with
  | nil => simp
  | cons kv rest ih =>
      by_cases hk : kv.1 = id
      · simp [lookupConn, hk] at h
      · simp only [lookupConn, hk, if_neg] at h
        intro kv' hkv'
        rcases List.mem_cons.mp hkv' with rfl | hmem
        · exact hk
        · exact ih h kv' hmem

theorem removeConn_of_lookup_none (pool : Pool) (id : String)
    (h : lookupConn pool id = none) : removeConn pool id = pool := by
  induction pool with
  | nil => rfl
  | cons kv rest ih =>
      by_cases hk : kv.1 = id
      · simp [lookupConn, hk] at h
      · simp only [lookupConn, hk, if_neg] at h
        simp [removeConn, hk, ih h]

theorem disconnect_snd (pool : Pool) (id : String) (beh : CloseBehavior) :
    (disconnect pool id beh).2 = removeConn pool id := by
  unfold disconnect
  cases h : lookupConn pool id with
  | none => simp [removeConn_of_lookup_none pool id h]
  | some c =>
      by_cases h1 : c.sftp_present && beh.sftpCloseFails <;>
        by_cases h2 : beh.clientCloseFails <;> simp [h1, h2]

/-! ### History lemmas -/

theorem appendHistory_length_le (h : List String) (cmd : String) :
    (appendHistory h cmd).length ≤ 100 := by
  unfold appendHistory
  by_cases hl : 100 < (h ++ [cmd]).length
  · simp only [if_pos hl, List.length_drop]
    omega
  · simp only [if_neg hl]
    omega

theorem appendHistory_getLast (h : List String) (cmd : String) :
    (appendHistory h cmd).getLast? = some cmd := by
  unfold appendHistory
  by_cases hl : 100 < (h ++ [cmd]).length
  · rw [if_pos hl]
    have hle : (h ++ [cmd]).length - 100 ≤ h.length := by
      simp only [List.length_append, List.length_cons, List.length_nil]
      omega
    rw [List.drop_append_of_le_length hle]
    exact List.getLast?_concat _
  · rw [if_neg hl]
    exact List.getLast?_concat _

theorem getLast?_cons_of_ne_nil {α : Type} (a : α) (l : List α) (h : l ≠ []) :
    (a :: l).getLast? = l.getLast? := by
  cases l with
  | nil => exact absurd rfl h
  | cons b bs => exact List.getLast?_cons_cons

/-! ### Eviction lemmas -/

theorem cleanup_foldl_eq_filter (ids : List String) (pool : Pool)
    (beh : String → CloseBehavior) :
    ids.foldl (fun p i => (disconnect p i (beh i)).2) pool
      = pool.filter (fun kv => !ids.contains kv.1) := by
  induction ids generalizing pool with
  | nil => simp
  | cons i is ih =>
      rw [List.foldl_cons, ih, disconnect_snd, removeConn_eq_filter, List.filter_filter]
      apply List.filter_congr
      intro kv _
      by_cases h : kv.1 = i <;> simp [h]

theorem cleanup_old_of_no_stale (pool : Pool) (now : Nat)
    (beh : String → CloseBehavior) (h : ∀ kv ∈ pool, isStale now kv.2 = false) :
    cleanup_old pool now beh = pool := by
  unfold cleanup_old
  have : pool.filter (fun kv => isStale now kv.2) = [] := by
    rw [List.filter_eq_nil_iff]
    intro kv hkv
    simp [h kv hkv]
  rw [this]
  rfl

theorem cleanup_old_eq_filter (pool : Pool) (now : Nat)
    (beh : String → CloseBehavior) (hnd : (pool.map Prod.fst).Nodup) :
    cleanup_old pool now beh = pool.filter (fun kv => !isStale now kv.2) := by
  unfold cleanup_old
  rw [cleanup_foldl_eq_filter]
  apply List.filter_congr
  intro kv hkv
  congr 1
  rw [Bool.eq_iff_iff]
  constructor
  · intro hcon
    rw [List.contains_iff_exists_mem_beq] at hcon
    obtain ⟨a, ha, hbeq⟩ := hcon
    rw [List.mem_map] at ha
    obtain ⟨kv', hkv', rfl⟩ := ha
    rw [List.mem_filter] at hkv'
    have : kv' = kv :=
      List.inj_on_of_nodup_map hnd hkv'.1 hkv (beq_iff_eq.mp hbeq).symm
    rw [← this]
    exact hkv'.2
  · intro hst
    rw [List.contains_iff_exists_mem_beq]
    exact ⟨kv.1, List.mem_map.mpr ⟨kv, List.mem_filter.mpr ⟨hkv, hst⟩, rfl⟩, beq_iff_eq.mpr rfl⟩

/-! ### Execution lemmas -/

theorem probeOk_output {probe : ProbeBehavior} (hp : probeOk probe = true) :
    ∃ s, probe = ProbeBehavior.output s ∧ stripStr s = "test" := by
  cases probe <;> simp_all [probeOk]

theorem exec_ok (pool : Pool) (id cmd : String) (timeout : Nat)
    (probe : ProbeBehavior) (out err : String) (code : Int) (el now : Nat)
    (c : SSHConnection) (hc : lookupConn pool id = some c)
    (hp : probeOk probe = true) :
    execute_command pool id cmd timeout probe (.ok out err code el) now =
      (.ok { command := cmd, stdout := out, stderr := err, exit_code := code,
             execution_time := el, success := code == 0 },
       updateConn pool id (fun x =>
         { x with last_used := now,
                  command_history := appendHistory x.command_history cmd })) := by
  obtain ⟨s, rfl, hs⟩ := probeOk_output hp
  simp only [execute_command, get_connection, test_connection, hc,
    lookupConn_updateConn, Option.map_some', hs, decide_True, Bool.not_true,
    Bool.false_eq_true, if_false, updateConn_updateConn]

theorem exec_ok_inv {pool : Pool} {id cmd : String} {timeout : Nat}
    {probe : ProbeBehavior} {outcome : ExecOutcome} {now : Nat}
    {r : CommandResult} {pool' : Pool}
    (hok : execute_command pool id cmd timeout probe outcome now = (.ok r, pool')) :
    ∃ c s out err code el,
      lookupConn pool id = some c ∧ probe = ProbeBehavior.output s ∧
      stripStr s = "test" ∧ outcome = ExecOutcome.ok out err code el ∧
      r = { command := cmd, stdout := out, stderr := err, exit_code := code,
            execution_time := el, success := code == 0 } ∧
      pool' = updateConn pool id (fun x =>
        { x with last_used := now,
                 command_history := appendHistory x.command_history cmd }) := by
  cases hc : lookupConn pool id with
  | none => simp [execute_command, get_connection, hc] at hok
  | some c =>
      cases probe with
      | noTransport =>
          simp [execute_command, get_connection, test_connection, hc,
            lookupConn_updateConn] at hok
      | inactive =>
          simp [execute_command, get_connection, test_connection, hc,
            lookupConn_updateConn] at hok
      | raises =>
          simp [execute_command, get_connection, test_connection, hc,
            lookupConn_updateConn] at hok
      | output s =>
          by_cases hs : stripStr s = "test"
          · cases outcome with
            | ok out err code el =>
                rw [exec_ok pool id cmd timeout (.output s) out err code el now c hc
                  (by simp [probeOk, hs])] at hok
                obtain ⟨h1, h2⟩ := Prod.mk.injEq .. ▸ hok
                exact ⟨c, s, out, err, code, el, rfl, rfl, hs,
                  rfl, (Except.ok.injEq .. ▸ h1).symm, h2.symm⟩
            | sshException =>
                simp [execute_command, get_connection, test_connection, hc,
                  lookupConn_updateConn, hs] at hok
            | socketTimeout =>
                simp [execute_command, get_connection, test_connection, hc,
                  lookupConn_updateConn, hs] at hok
            | otherError =>
                simp [execute_command, get_connection, test_connection, hc,
                  lookupConn_updateConn, hs] at hok
          · simp [execute_command, get_connection, test_connection, hc,
              lookupConn_updateConn, hs] at hok

theorem interactive_mismatch (pool : Pool) (id cmd : String)
    (prompts responses : List String) (timeout : Nat) (probe : ProbeBehavior)
    (stream : List (Option String)) (now : Nat) (c : SSHConnection)
    (hc : lookupConn pool id = some c) (hp : probeOk probe = true)
    (hlen : prompts.length ≠ responses.length) :
    execute_interactive_command pool id cmd prompts responses timeout probe stream now =
      (.error (.commandError "Number of expect prompts must match number of responses"
        (some cmd)),
       updateConn pool id (fun x => { x with last_used := now })) := by
  obtain ⟨s, rfl, hs⟩ := probeOk_output hp
  simp only [execute_interactive_command, get_connection, test_connection, hc,
    lookupConn_updateConn, Option.map_some', hs, decide_True, Bool.not_true,
    Bool.false_eq_true, if_false, updateConn_updateConn, hlen, ite_true,
    if_true, ne_eq, not_false_iff]

theorem interactive_ok_inv {pool : Pool} {id cmd : String}
    {prompts responses : List String} {timeout : Nat} {probe : ProbeBehavior}
    {stream : List (Option String)} {now : Nat} {r : CommandResult} {pool' : Pool}
    (hok : execute_interactive_command pool id cmd prompts responses timeout
      probe stream now = (.ok r, pool')) :
    ∃ c s out t,
      lookupConn pool id = some c ∧ probe = ProbeBehavior.output s ∧
      stripStr s = "test" ∧ prompts.length = responses.length ∧
      runInteractive prompts responses stream timeout = .ok (out, t) ∧
      r = { command := cmd, stdout := out, stderr := "", exit_code := 0,
            execution_time := t, success := true } ∧
      pool' = updateConn pool id (fun x =>
        { x with last_used := now,
                 command_history := x.command_history ++ ["INTERACTIVE: " ++ cmd] }) := by
  cases hc : lookupConn pool id with
  | none => simp [execute_interactive_command, get_connection, hc] at hok
  | some c =>
      cases probe with
      | noTransport =>
          simp [execute_interactive_command, get_connection, test_connection, hc,
            lookupConn_updateConn] at hok
      | inactive =>
          simp [execute_interactive_command, get_connection, test_connection, hc,
            lookupConn_updateConn] at hok
      | raises =>
          simp [execute_interactive_command, get_connection, test_connection, hc,
            lookupConn_updateConn] at hok
      | output s =>
          by_cases hs : stripStr s = "test"
          · by_cases hlen : prompts.length = responses.length
            · cases hrun : runInteractive prompts responses stream timeout with
              | error e =>
                  simp [execute_interactive_command, get_connection, test_connection,
                    hc, lookupConn_updateConn, hs, hlen, hrun] at hok
              | ok p =>
                  obtain ⟨out, t⟩ := p
                  simp only [execute_interactive_command, get_connection,
                    test_connection, hc, lookupConn_updateConn, Option.map_some',
                    hs, decide_True, Bool.not_true, Bool.false_eq_true, if_false,
                    hlen, ne_eq, not_true_eq_false, hrun,
                    updateConn_updateConn] at hok
                  obtain ⟨h1, h2⟩ := Prod.mk.injEq .. ▸ hok
                  exact ⟨c, s, out, t, rfl, rfl, hs, hlen, rfl,
                    (Except.ok.injEq .. ▸ h1).symm, h2.symm⟩
            · simp [execute_interactive_command, get_connection, test_connection,
                hc, lookupConn_updateConn, hs, hlen] at hok
          · simp [execute_interactive_command, get_connection, test_connection,
              hc, lookupConn_updateConn, hs] at hok

/-! ### Claims -/

/-- C2: the claim states that an interactive call whose deadline expires
before a prompt is matched fails with the CommandTimeout kind carrying the
timeout and the unmet prompt.  The loop does raise exactly that
`SSHTimeoutError` internally (first conjunct), but the surrounding
`except Exception` in `execute_interactive_command` catches it and
re-raises a generic `SSHCommandError`, so the caller observes the
CommandExecutionError kind instead (second conjunct): on an active pooled
session, with no data arriving for four polls against a 3-tick deadline,
the delivered failure is `commandError`, not `timeoutError`. -/
theorem claim2_theorem :
    runInteractive ["Password:"] ["secret"] (List.replicate 4 none) 3
      = .error (.timeoutError
          "Interactive command timed out waiting for prompt: Password:"
          (some 3) (some "interactive_command")) ∧
    execute_interactive_command pool1 "c1" "login" ["Password:"] ["secret"] 3
      (.output "test") (List.replicate 4 none) 9
      = (.error (.commandError "Error executing interactive command: login"
          (some "login")),
         [("c1", { connFresh with last_used := 9 })]) :=
  ⟨rfl, rfl⟩

/-- C3: the key formats are indeed attempted in the fixed order RSA, DSS,
ECDSA, Ed25519 (first three conjuncts), and `_parse_private_key` raises
`SSHAuthenticationError("Invalid private key format")` when none parses;
but because `create_connection` parses the key inside its `try`, that
error is swallowed by `except Exception` and the caller sees the generic
`SSHConnectionError("Unexpected error connecting ...")` — the
ConnectionFailed kind, not InvalidCredential (last conjunct; the pool is
left unchanged). -/
theorem claim3_theorem :
    parse_private_key (fun _ => false)
      = .error (.authenticationError "Invalid private key format" none (some "key")) ∧
    parse_private_key (fun _ => true) = .ok KeyType.RSA ∧
    parse_private_key (fun k => decide (k = KeyType.Ed25519)) = .ok KeyType.Ed25519 ∧
    create_connection 50 [] "h" "u" none (some (fun _ => false)) 22 "id1" .ok 0
      (fun _ => behNone)
      = (.error (.connectionError "Unexpected error connecting to h:22"
          (some "h") (some 22)), []) :=
  ⟨rfl, rfl, rfl, rfl⟩

/-- C4 counterexample: the claim states disconnect returns false exactly
when the id was not in the pool; but with the id present and the SFTP
sub-channel close raising, disconnect returns false anyway. -/
theorem claim4_counterexample :
    lookupConn pool1 "c1" = some connFresh ∧
    (disconnect pool1 "c1" { behNone with sftpCloseFails := true }).1 = false :=
  ⟨rfl, rfl⟩

/-- C4 (amended): after disconnect the id is always absent from the pool,
even if a close raised; and disconnect returns true iff the id was present
and neither the SFTP sub-channel close nor the main channel close raised
(tunnel-close failures are swallowed and do not affect the result), so it
returns false both for an unknown id and for a raising close. -/
theorem claim4_amended :
    ∀ (pool : Pool) (id : String) (beh : CloseBehavior),
      lookupConn (disconnect pool id beh).2 id = none ∧
      ((disconnect pool id beh).1 = true ↔
        ∃ c, lookupConn pool id = some c ∧
          (c.sftp_present && beh.sftpCloseFails) = false ∧
          beh.clientCloseFails = false) := by
  intro pool id beh
  constructor
  · rw [disconnect_snd]
    exact lookupConn_removeConn pool id
  · unfold disconnect
    cases hc : lookupConn pool id with
    | none => simp
    | some c =>
        rcases hsp : c.sftp_present <;> rcases hsf : beh.sftpCloseFails <;>
          rcases hcf : beh.clientCloseFails <;> simp_all

/-- C5 counterexample: the claim states every failing probe sets
is_connected to false; but on an inactive transport the probe returns
false while the pooled connection keeps is_connected = true. -/
theorem claim5_counterexample :
    connFresh.is_connected = true ∧
    test_connection pool1 "c1" 5 .inactive
      = (false, [("c1", { connFresh with last_used := 5 })]) ∧
    ({ connFresh with last_used := 5 } : SSHConnection).is_connected = true :=
  ⟨rfl, rfl, rfl⟩

/-- C5 (amended): for a pooled session the probe returns true iff the
transport is reported active and the round-trip returns exactly the token
after stripping; is_connected is set to false only when the probe raises —
on an inactive or absent transport or a token mismatch the probe returns
false but leaves is_connected unchanged (last_used is refreshed by the
lookup in all cases). -/
theorem claim5_amended :
    ∀ (pool : Pool) (id : String) (now : Nat) (probe : ProbeBehavior)
      (c : SSHConnection),
      lookupConn pool id = some c →
      ((test_connection pool id now probe).1 = true ↔
        ∃ s, probe = ProbeBehavior.output s ∧ stripStr s = "test") ∧
      lookupConn (test_connection pool id now probe).2 id =
        some { c with last_used := now,
                      is_connected := if probe = ProbeBehavior.raises then false
                                      else c.is_connected } := by
  intro pool id now probe c hc
  cases probe <;>
    simp [test_connection, get_connection, hc, lookupConn_updateConn,
      updateConn_updateConn]

/-- C5 witness: the amended theorem applied to the one-entry pool with a
round-trip that echoes the token surrounded by whitespace. -/
theorem claim5_witness :
    lookupConn pool1 "c1" = some connFresh ∧
    (((test_connection pool1 "c1" 5 (.output " test\n")).1 = true ↔
       ∃ s, ProbeBehavior.output " test\n" = ProbeBehavior.output s ∧
         stripStr s = "test") ∧
     lookupConn (test_connection pool1 "c1" 5 (.output " test\n")).2 "c1" =
       some { connFresh with
              last_used := 5,
              is_connected := if ProbeBehavior.output " test\n" = ProbeBehavior.raises
                              then false else connFresh.is_connected }) :=
  ⟨rfl, claim5_amended pool1 "c1" 5 (.output " test\n") connFresh rfl⟩

/-- C8 counterexample: the claim quantifies over every session id and
states fileExists never raises; but for an id absent from the pool the
call raises SSHConnectionError. -/
theorem claim8_counterexample :
    (file_exists [] "nope" 0 .found).1
      = .error (.connectionError "Connection nope not found or SFTP not available"
          none none) :=
  rfl

/-- C8 (amended): for every pooled session with an SFTP sub-channel,
fileExists never raises — it returns a boolean for every stat outcome —
and returns true exactly when the stat succeeded, so both a missing path
and any other stat failure yield false. -/
theorem claim8_amended :
    ∀ (pool : Pool) (id : String) (now : Nat) (st : StatOutcome)
      (c : SSHConnection),
      lookupConn pool id = some c → c.sftp_present = true →
      ((file_exists pool id now st).1 = .ok true ∨
        (file_exists pool id now st).1 = .ok false) ∧
      ((file_exists pool id now st).1 = .ok true ↔ st = StatOutcome.found) := by
  intro pool id now st c hc hs
  cases st <;> simp [file_exists, get_connection, hc, hs]

/-- C8 witness: the amended theorem applied to the one-entry pool with a
stat call that fails with an error other than file-not-found. -/
theorem claim8_witness :
    lookupConn pool1 "c1" = some connFresh ∧
    connFresh.sftp_present = true ∧
    (((file_exists pool1 "c1" 0 .otherError).1 = .ok true ∨
       (file_exists pool1 "c1" 0 .otherError).1 = .ok false) ∧
     ((file_exists pool1 "c1" 0 .otherError).1 = .ok true ↔
       StatOutcome.otherError = StatOutcome.found)) :=
  ⟨rfl, rfl, claim8_amended pool1 "c1" 0 .otherError connFresh rfl rfl⟩

/-- C1 counterexample: the claim states the history never exceeds 100
entries after any mix of executions; but a successful interactive
execution on a session whose history already holds 100 entries leaves 101
entries, because `execute_interactive_command` appends without trimming. -/
theorem claim1_counterexample :
    (execute_interactive_command pool100 "c1" "login" ["Password:"] ["secret"] 300
        (.output "test") [some "Password: "] 1).1
      = .ok { command := "login", stdout := "Password: ", stderr := "",
              exit_code := 0, execution_time := 6, success := true } ∧
    (lookupConn (execute_interactive_command pool100 "c1" "login" ["Password:"]
        ["secret"] 300 (.output "test") [some "Password: "] 1).2 "c1").map
      (fun c => c.command_history.length) = some 101 := by
  exact ⟨rfl, by decide⟩

/-- C1 (amended): after each successful execute the history holds at most
100 entries (oldest evicted first) and its last entry is the issued
command; after each successful executeInteractive the history is the
previous history with the marked command appended and no trimming, so the
marked command is last but the length grows by one and can exceed 100. -/
theorem claim1_amended :
    (∀ (pool : Pool) (id cmd : String) (timeout : Nat) (probe : ProbeBehavior)
       (outcome : ExecOutcome) (now : Nat) (r : CommandResult) (pool' : Pool)
       (c' : SSHConnection),
       execute_command pool id cmd timeout probe outcome now = (.ok r, pool') →
       lookupConn pool' id = some c' →
       c'.command_history.length ≤ 100 ∧
       c'.command_history.getLast? = some cmd) ∧
    (∀ (pool : Pool) (id cmd : String) (prompts responses : List String)
       (timeout : Nat) (probe : ProbeBehavior) (stream : List (Option String))
       (now : Nat) (r : CommandResult) (pool' : Pool) (c c' : SSHConnection),
       execute_interactive_command pool id cmd prompts responses timeout probe
         stream now = (.ok r, pool') →
       lookupConn pool id = some c → lookupConn pool' id = some c' →
       c'.command_history = c.command_history ++ ["INTERACTIVE: " ++ cmd]) := by
  constructor
  · intro pool id cmd timeout probe outcome now r pool' c' hok hl
    obtain ⟨c, s, out, err, code, el, hc, -, -, -, -, hpool⟩ := exec_ok_inv hok
    subst hpool
    rw [lookupConn_updateConn, hc, Option.map_some'] at hl
    obtain rfl := Option.some.inj hl.symm
    exact ⟨appendHistory_length_le _ _, appendHistory_getLast _ _⟩
  · intro pool id cmd prompts responses timeout probe stream now r pool' c c'
      hok hc hl
    obtain ⟨c0, s, out, t, hc0, -, -, -, -, -, hpool⟩ := interactive_ok_inv hok
    subst hpool
    obtain rfl : c0 = c := Option.some.inj (hc0.symm.trans hc)
    rw [lookupConn_updateConn, hc0, Option.map_some'] at hl
    obtain rfl := Option.some.inj hl.symm
    rfl

/-- C1 witness: the amended theorem applied to a concrete successful
execute (history becomes the single issued command) and to the concrete
interactive run of the counterexample scenario. -/
theorem claim1_witness :
    execute_command pool1 "c1" "ls" 300 (.output "test") (.ok "o" "" 0 1) 5
      = (.ok { command := "ls", stdout := "o", stderr := "", exit_code := 0,
               execution_time := 1, success := true },
         [("c1", { connFresh with last_used := 5, command_history := ["ls"] })]) ∧
    (({ connFresh with
        last_used := 5,
        command_history := ["ls"] } : SSHConnection).command_history.length ≤ 100 ∧
     ({ connFresh with
        last_used := 5,
        command_history := ["ls"] } : SSHConnection).command_history.getLast?
       = some "ls") :=
  ⟨rfl,
   claim1_amended.1 pool1 "c1" "ls" 300 (.output "test") (.ok "o" "" 0 1) 5
     { command := "ls", stdout := "o", stderr := "", exit_code := 0,
       execution_time := 1, success := true }
     [("c1", { connFresh with last_used := 5, command_history := ["ls"] })]
     { connFresh with last_used := 5, command_history := ["ls"] } rfl rfl⟩

/-- C9 counterexample: the claim states every call with mismatched
prompt/response lists fails with ArgumentMismatch; but on an unknown
session id such a call fails with the ConnectionFailed kind instead,
because the session lookup precedes the length check. -/
theorem claim9_counterexample :
    (["a"] : List String).length ≠ ([] : List String).length ∧
    (execute_interactive_command [] "nope" "x" ["a"] [] 300 (.output "test") [] 3).1
      = .error (.connectionError "Connection nope not found" none none) := by
  exact ⟨by decide, rfl⟩

/-- C9 (amended): on an active pooled session, a call whose prompt and
response lists differ in length fails with the ArgumentMismatch
SSHCommandError; and every call that returns a result (all prompt and
response steps completed before the deadline) reports exit status 0 and
success unconditionally true. -/
theorem claim9_amended :
    (∀ (pool : Pool) (id cmd : String) (prompts responses : List String)
       (timeout : Nat) (probe : ProbeBehavior) (stream : List (Option String))
       (now : Nat) (c : SSHConnection),
       lookupConn pool id = some c → probeOk probe = true →
       prompts.length ≠ responses.length →
       (execute_interactive_command pool id cmd prompts responses timeout probe
         stream now).1
         = .error (.commandError
             "Number of expect prompts must match number of responses" (some cmd))) ∧
    (∀ (pool : Pool) (id cmd : String) (prompts responses : List String)
       (timeout : Nat) (probe : ProbeBehavior) (stream : List (Option String))
       (now : Nat) (r : CommandResult) (pool' : Pool),
       execute_interactive_command pool id cmd prompts responses timeout probe
         stream now = (.ok r, pool') →
       r.exit_code = 0 ∧ r.success = true) := by
  constructor
  · intro pool id cmd prompts responses timeout probe stream now c hc hp hlen
    rw [interactive_mismatch pool id cmd prompts responses timeout probe stream
      now c hc hp hlen]
  · intro pool id cmd prompts responses timeout probe stream now r pool' hok
    obtain ⟨c, s, out, t, -, -, -, -, -, hr, -⟩ := interactive_ok_inv hok
    subst hr
    exact ⟨rfl, rfl⟩

/-- C9 witness: the amended theorem applied to a mismatched call on the
live one-entry pool (first conjunct) and to a completed one-prompt
interactive run (remaining conjuncts). -/
theorem claim9_witness :
    (execute_interactive_command pool1 "c1" "x" ["a"] [] 300 (.output "test") [] 3).1
      = .error (.commandError
          "Number of expect prompts must match number of responses" (some "x")) ∧
    (({ command := "login", stdout := "Password: ", stderr := "", exit_code := 0,
        execution_time := 6, success := true } : CommandResult).exit_code = 0 ∧
     ({ command := "login", stdout := "Password: ", stderr := "", exit_code := 0,
        execution_time := 6, success := true } : CommandResult).success = true) :=
  ⟨claim9_amended.1 pool1 "c1" "x" ["a"] [] 300 (.output "test") [] 3 connFresh
     rfl rfl (by decide),
   claim9_amended.2 pool1 "c1" "login" ["Password:"] ["secret"] 300
     (.output "test") [some "Password: "] 1
     { command := "login", stdout := "Password: ", stderr := "", exit_code := 0,
       execution_time := 6, success := true }
     [("c1", { connFresh with
               last_used := 1,
               command_history := ["INTERACTIVE: login"] })] rfl⟩

/-- C7: at exact capacity with no evictable session (none stale at the
current time), create fails with the capacity SSHConnectionError and the
pool is returned unchanged (the sweep removed nothing); and on a pool with
unique ids the eviction sweep removes exactly the sessions that are over
an hour old, idle for over 30 minutes, or flagged disconnected. -/
theorem claim7_theorem :
    (∀ (maxConns : Nat) (pool : Pool) (host username : String)
       (password : Option String) (private_key : Option (KeyType → Bool))
       (port : Nat) (newId : String) (outcome : ConnectOutcome) (now : Nat)
       (beh : String → CloseBehavior),
       pool.length = maxConns →
       (∀ kv ∈ pool, isStale now kv.2 = false) →
       create_connection maxConns pool host username password private_key port
         newId outcome now beh
         = (.error (.connectionError "Maximum number of connections reached"
             none none), pool)) ∧
    (∀ (pool : Pool) (now : Nat) (beh : String → CloseBehavior),
       (pool.map Prod.fst).Nodup →
       cleanup_old pool now beh = pool.filter (fun kv => !isStale now kv.2)) := by
  constructor
  · intro maxConns pool host username password private_key port newId outcome
      now beh hlen hns
    subst hlen
    simp [create_connection, cleanup_old_of_no_stale pool now beh hns]
  · exact cleanup_old_eq_filter

/-- C7 witness: the theorem applied to a one-element pool at capacity 1
with a fresh session, and to a two-element pool where exactly the
disconnected session is swept. -/
theorem claim7_witness :
    (pool1.length = 1) ∧
    create_connection 1 pool1 "h2" "u2" (some "pw") none 22 "id2" .ok 5
      (fun _ => behNone)
      = (.error (.connectionError "Maximum number of connections reached"
          none none), pool1) ∧
    cleanup_old [("c1", connFresh),
        ("c2", { connFresh with id := "c2", is_connected := false })] 5
      (fun _ => behNone)
      = ([("c1", connFresh),
          ("c2", { connFresh with id := "c2", is_connected := false })].filter
          (fun kv => !isStale 5 kv.2)) :=
  ⟨rfl,
   claim7_theorem.1 1 pool1 "h2" "u2" (some "pw") none 22 "id2" .ok 5
     (fun _ => behNone) rfl (by decide),
   claim7_theorem.2 [("c1", connFresh),
       ("c2", { connFresh with id := "c2", is_connected := false })] 5
     (fun _ => behNone) (by decide)⟩

theorem multi_step_ok (pool : Pool) (id c : String) (cs : List String)
    (oracle : Nat → ProbeBehavior × ExecOutcome) (stopOnError : Bool) (now : Nat)
    (r : CommandResult) (p' : Pool)
    (hstep : execute_command pool id c 300 (oracle 0).1 (oracle 0).2 now
      = (.ok r, p')) :
    handle_execute_multi pool id (c :: cs) oracle stopOnError now =
      if (!r.success && stopOnError) = true then ([r], p')
      else (r :: (handle_execute_multi p' id cs (fun i => oracle (i + 1))
              stopOnError now).1,
            (handle_execute_multi p' id cs (fun i => oracle (i + 1))
              stopOnError now).2) := by
  simp only [handle_execute_multi, hstep]

/-- C6: with stopOnError true, if every command before position k succeeds
(exit status 0) and the command at position k is the first to fail
(nonzero exit status), the handler produces exactly k+1 results (the k
successes plus the failing result, which is last), and the produced
results do not depend on the commands after position k — they are never
executed. -/
theorem claim6_theorem :
    ∀ (pre : List String) (pool : Pool) (id : String) (now : Nat)
      (c0 : SSHConnection) (cf : String) (post : List String)
      (oracle : Nat → ProbeBehavior × ExecOutcome)
      (outf errf : String) (codef : Int) (elf : Nat),
      lookupConn pool id = some c0 →
      (∀ i, i < pre.length → probeOk (oracle i).1 = true ∧
        ∃ out err el, (oracle i).2 = ExecOutcome.ok out err 0 el) →
      probeOk (oracle pre.length).1 = true →
      (oracle pre.length).2 = ExecOutcome.ok outf errf codef elf →
      codef ≠ 0 →
      (handle_execute_multi pool id (pre ++ cf :: post) oracle true now).1.length
          = pre.length + 1 ∧
      (handle_execute_multi pool id (pre ++ cf :: post) oracle true now).1.getLast?
          = some { command := cf, stdout := outf, stderr := errf,
                   exit_code := codef, execution_time := elf, success := false } ∧
      (handle_execute_multi pool id (pre ++ cf :: post) oracle true now).1
          = (handle_execute_multi pool id (pre ++ [cf]) oracle true now).1 := by
  intro pre
  induction pre with
  | nil =>
      intro pool id now c0 cf post oracle outf errf codef elf hc hgood hpf hof hne
      have hsucc : (codef == 0) = false := beq_eq_false_iff_ne.mpr hne
      have hstep : execute_command pool id cf 300 (oracle 0).1 (oracle 0).2 now
          = (.ok { command := cf, stdout := outf, stderr := errf,
                   exit_code := codef, execution_time := elf,
                   success := codef == 0 },
             updateConn pool id (fun x =>
               { x with last_used := now,
                        command_history := appendHistory x.command_history cf })) := by
        rw [show (oracle 0).2 = ExecOutcome.ok outf errf codef elf from hof]
        exact exec_ok pool id cf 300 (oracle 0).1 outf errf codef elf now c0 hc hpf
      simp only [List.nil_append, List.length_nil,
        multi_step_ok pool id cf post oracle true now _ _ hstep,
        multi_step_ok pool id cf [] oracle true now _ _ hstep,
        hsucc, Bool.not_false, Bool.true_and, if_true]
      simp [hsucc]
  | cons c pre' ih =>
      intro pool id now c0 cf post oracle outf errf codef elf hc hgood hpf hof hne
      obtain ⟨hp0, out0, err0, el0, ho0⟩ :
          probeOk (oracle 0).1 = true ∧
            ∃ out err el, (oracle 0).2 = ExecOutcome.ok out err 0 el := by
        have := hgood 0 (by simp)
        exact ⟨this.1, this.2⟩
      have hstep : execute_command pool id c 300 (oracle 0).1 (oracle 0).2 now
          = (.ok { command := c, stdout := out0, stderr := err0, exit_code := 0,
                   execution_time := el0, success := (0 : Int) == 0 },
             updateConn pool id (fun x =>
               { x with last_used := now,
                        command_history := appendHistory x.command_history c })) := by
        rw [show (oracle 0).2 = ExecOutcome.ok out0 err0 0 el0 from ho0]
        exact exec_ok pool id c 300 (oracle 0).1 out0 err0 0 el0 now c0 hc hp0
      have hlook : lookupConn (updateConn pool id (fun x =>
          { x with last_used := now,
                   command_history := appendHistory x.command_history c })) id
          = some { c0 with
                   last_used := now,
                   command_history := appendHistory c0.command_history c } := by
        rw [lookupConn_updateConn, hc, Option.map_some']
      have hgood' : ∀ i, i < pre'.length →
          probeOk ((fun j => oracle (j + 1)) i).1 = true ∧
            ∃ out err el, ((fun j => oracle (j + 1)) i).2
              = ExecOutcome.ok out err 0 el := by
        intro i hi
        exact hgood (i + 1) (by simpa using Nat.succ_lt_succ hi)
      have hpf' : probeOk ((fun j => oracle (j + 1)) pre'.length).1 = true := by
        simpa using hpf
      have hof' : ((fun j => oracle (j + 1)) pre'.length).2
          = ExecOutcome.ok outf errf codef elf := by
        simpa using hof
      obtain ⟨ihl, ihlast, ihpost⟩ := ih _ id now _ cf post (fun j => oracle (j + 1))
        outf errf codef elf hlook hgood' hpf' hof' hne
      have hznat : ((0 : Int) == 0) = true := rfl
      rw [List.cons_append, List.cons_append,
        multi_step_ok pool id c (pre' ++ cf :: post) oracle true now _ _ hstep,
        multi_step_ok pool id c (pre' ++ [cf]) oracle true now _ _ hstep]
      simp only [hznat, Bool.not_true, Bool.false_and, Bool.false_eq_true,
        if_false]
      refine ⟨?_, ?_, ?_⟩
      · simp [ihl]
      · have hne' : (handle_execute_multi (updateConn pool id (fun x =>
            { x with last_used := now,
                     command_history := appendHistory x.command_history c })) id
            (pre' ++ cf :: post) (fun j => oracle (j + 1)) true now).1 ≠ [] := by
          intro hnil
          rw [hnil] at ihl
          simp at ihl
        rw [getLast?_cons_of_ne_nil _ _ hne']
        exact ihlast
      · rw [ihpost]

/-- C6 witness: the theorem applied to the batch a, b, c on the live
one-entry pool, where b is the first command to fail: exactly two results
are produced, the failing one last, and the third command is irrelevant. -/
theorem claim6_witness :
    (handle_execute_multi pool1 "c1" ["a", "b", "c"] oracleW true 5).1.length = 2 ∧
    (handle_execute_multi pool1 "c1" ["a", "b", "c"] oracleW true 5).1.getLast?
      = some { command := "b", stdout := "", stderr := "boom", exit_code := 1,
               execution_time := 1, success := false } ∧
    (handle_execute_multi pool1 "c1" ["a", "b", "c"] oracleW true 5).1
      = (handle_execute_multi pool1 "c1" ["a", "b"] oracleW true 5).1 :=
  claim6_theorem ["a"] pool1 "c1" 5 connFresh "b" ["c"] oracleW "" "boom" 1 1
    rfl
    (by
      intro i hi
      simp only [List.length_cons, List.length_nil] at hi
      have h0 : i = 0 := by omega
      subst h0
      exact ⟨rfl, "o1", "", 1, rfl⟩)
    rfl rfl (by decide)

theorem exec_not_found (pool : Pool) (id cmd : String) (timeout : Nat)
    (probe : ProbeBehavior) (outcome : ExecOutcome) (now : Nat)
    (h : lookupConn pool id = none) :
    execute_command pool id cmd timeout probe outcome now
      = (.error (.connectionError s!"Connection {id} not found" none none), pool) := by
  simp [execute_command, get_connection, h]

theorem sysinfo_aux_keys (id : String) (oracle : Nat → ProbeBehavior × ExecOutcome)
    (now : Nat) (cmds : List (String × String)) :
    ∀ (pool : Pool) (i : Nat),
      (get_system_info_aux id oracle now pool cmds i).1.map Prod.fst
        = cmds.map Prod.fst := by
  induction cmds with
  | nil => intro pool i; rfl
  | cons kc rest ih =>
      intro pool i
      obtain ⟨key, cmd⟩ := kc
      simp only [get_system_info_aux, List.map_cons, List.cons.injEq]
      exact ⟨trivial, ih _ _⟩

theorem sysinfo_aux_notfound (id : String)
    (oracle : Nat → ProbeBehavior × ExecOutcome) (now : Nat)
    (cmds : List (String × String)) :
    ∀ (pool : Pool) (i : Nat), lookupConn pool id = none →
      ∀ kv ∈ (get_system_info_aux id oracle now pool cmds i).1, kv.2 = "N/A" := by
  induction cmds with
  | nil =>
      intro pool i hnf kv h
      simp [get_system_info_aux] at h
  | cons kc rest ih =>
      intro pool i hnf kv h
      obtain ⟨key, cmd⟩ := kc
      simp only [get_system_info_aux,
        exec_not_found pool id cmd 100 (oracle i).1 (oracle i).2 now hnf,
        List.mem_cons] at h
      rcases h with rfl | h
      · rfl
      · exact ih _ _ hnf kv h

theorem exec_preserves_lookup (pool : Pool) (id cmd : String) (timeout : Nat)
    (probe : ProbeBehavior) (outcome : ExecOutcome) (now : Nat)
    (c : SSHConnection) (hc : lookupConn pool id = some c) :
    ∃ c', lookupConn (execute_command pool id cmd timeout probe outcome now).2 id
      = some c' := by
  cases probe with
  | noTransport =>
      cases outcome <;>
        simp [execute_command, get_connection, test_connection, hc,
          lookupConn_updateConn]
  | inactive =>
      cases outcome <;>
        simp [execute_command, get_connection, test_connection, hc,
          lookupConn_updateConn]
  | raises =>
      cases outcome <;>
        simp [execute_command, get_connection, test_connection, hc,
          lookupConn_updateConn, updateConn_updateConn]
  | output s =>
      by_cases hs : stripStr s = "test" <;> cases outcome <;>
        simp [execute_command, get_connection, test_connection, hc,
          lookupConn_updateConn, updateConn_updateConn, hs]

theorem exec_value (pool : Pool) (id cmd : String) (timeout : Nat)
    (probe : ProbeBehavior) (outcome : ExecOutcome) (now : Nat)
    (c : SSHConnection) (hc : lookupConn pool id = some c) :
    (match (execute_command pool id cmd timeout probe outcome now).1 with
     | .ok r => if r.success then stripStr r.stdout else "N/A"
     | .error _ => "N/A")
    = (match outcome with
       | .ok out _ code _ =>
           if probeOk probe && (code == 0) then stripStr out else "N/A"
       | _ => "N/A") := by
  cases probe with
  | noTransport =>
      cases outcome <;>
        simp [execute_command, get_connection, test_connection, hc,
          lookupConn_updateConn, probeOk]
  | inactive =>
      cases outcome <;>
        simp [execute_command, get_connection, test_connection, hc,
          lookupConn_updateConn, probeOk]
  | raises =>
      cases outcome <;>
        simp [execute_command, get_connection, test_connection, hc,
          lookupConn_updateConn, probeOk]
  | output s =>
      by_cases hs : stripStr s = "test" <;> cases outcome <;>
        simp [execute_command, get_connection, test_connection, hc,
          lookupConn_updateConn, probeOk, hs]

theorem sysinfo_aux_get (id : String) (oracle : Nat → ProbeBehavior × ExecOutcome)
    (now : Nat) :
    ∀ (cmds : List (String × String)) (pool : Pool) (i0 k : Nat)
      (c : SSHConnection),
      lookupConn pool id = some c → k < cmds.length →
      ((∀ out err el,
          probeOk (oracle (i0 + k)).1 = true →
          (oracle (i0 + k)).2 = ExecOutcome.ok out err 0 el →
          ((get_system_info_aux id oracle now pool cmds i0).1[k]?).map Prod.snd
            = some (stripStr out)) ∧
       ((probeOk (oracle (i0 + k)).1 = false ∨
           ∀ out err el, (oracle (i0 + k)).2 ≠ ExecOutcome.ok out err 0 el) →
         ((get_system_info_aux id oracle now pool cmds i0).1[k]?).map Prod.snd
           = some "N/A")) := by
  intro cmds
  induction cmds with
  | nil =>
      intro pool i0 k c hc hk
      simp at hk
  | cons kc rest ih =>
      intro pool i0 k c hc hk
      obtain ⟨key, cmd⟩ := kc
      cases k with
      | zero =>
          have hv := exec_value pool id cmd 100 (oracle i0).1 (oracle i0).2 now c hc
          constructor
          · intro out err el hp ho
            simp only [Nat.add_zero] at hp ho
            simp only [get_system_info_aux, List.getElem?_cons_zero,
              Option.map_some']
            rw [hv, ho]
            simp [hp]
          · intro hfail
            simp only [Nat.add_zero] at hfail
            simp only [get_system_info_aux, List.getElem?_cons_zero,
              Option.map_some']
            rw [hv]
            rcases hfail with hp | hno
            · cases ho : (oracle i0).2 <;> simp [hp]
            · cases ho : (oracle i0).2 with
              | ok out err code el =>
                  have hcode : code ≠ 0 := by
                    intro h0
                    exact hno out err el (by rw [ho, h0])
                  simp [beq_eq_false_iff_ne.mpr hcode]
              | sshException => simp
              | socketTimeout => simp
              | otherError => simp
      | succ k' =>
          have hk' : k' < rest.length := by
            simpa using hk
          obtain ⟨c', hc'⟩ := exec_preserves_lookup pool id cmd 100 (oracle i0).1
            (oracle i0).2 now c hc
          have hrec := ih (execute_command pool id cmd 100 (oracle i0).1
            (oracle i0).2 now).2 (i0 + 1) k' c' hc' hk'
          rw [show i0 + 1 + k' = i0 + (k' + 1) by omega] at hrec
          simp only [get_system_info_aux, List.getElem?_cons_succ]
          exact hrec

/-- C10: getSystemInfo is total for every session id, pooled or not (the
embedding returns a mapping for every input and every per-command failure
is absorbed); the produced mapping has exactly the eight keys hostname,
kernel, os, architecture, uptime, memory, disk, cpu in their fixed order;
for a pooled session the value at each position i is the stripped stdout
of the i-th — corresponding — diagnostic command's own execution when
that execution passed the liveness probe and exited with status 0, and the
placeholder N/A whenever that same execution's probe failed, raised, or
exited nonzero; and for an id absent from the pool every value is N/A. -/
theorem claim10_theorem :
    ∀ (pool : Pool) (id : String) (oracle : Nat → ProbeBehavior × ExecOutcome)
      (now : Nat),
      (get_system_info pool id oracle now).1.map Prod.fst
        = ["hostname", "kernel", "os", "architecture", "uptime", "memory",
           "disk", "cpu"] ∧
      (∀ (c : SSHConnection), lookupConn pool id = some c →
        ∀ i, i < 8 →
          (∀ out err el,
            probeOk (oracle i).1 = true →
            (oracle i).2 = ExecOutcome.ok out err 0 el →
            ((get_system_info pool id oracle now).1[i]?).map Prod.snd
              = some (stripStr out)) ∧
          ((probeOk (oracle i).1 = false ∨
              ∀ out err el, (oracle i).2 ≠ ExecOutcome.ok out err 0 el) →
            ((get_system_info pool id oracle now).1[i]?).map Prod.snd
              = some "N/A")) ∧
      (lookupConn pool id = none →
        ∀ kv ∈ (get_system_info pool id oracle now).1, kv.2 = "N/A") := by
  intro pool id oracle now
  refine ⟨?_, ?_, ?_⟩
  · rw [get_system_info, sysinfo_aux_keys]
    rfl
  · intro c hc i hi
    have hlen : i < sysInfoCommands.length := hi
    have h := sysinfo_aux_get id oracle now sysInfoCommands pool 0 i c hc hlen
    rw [Nat.zero_add] at h
    exact h
  · exact fun hnf kv h =>
      sysinfo_aux_notfound id oracle now sysInfoCommands pool 0 hnf kv h

/-- C10 witness: the theorem applied to the live one-entry pool with the
three-command oracle — the entry at position 0 carries the stripped
stdout of its own command (o1) and the entry at position 1 carries N/A
because its own command exited nonzero — and to an id absent from the
empty pool, where the eight keys are produced and the hostname entry
carries the placeholder. -/
theorem claim10_witness :
    lookupConn pool1 "c1" = some connFresh ∧
    ((get_system_info pool1 "c1" oracleW 0).1[0]?).map Prod.snd = some "o1" ∧
    ((get_system_info pool1 "c1" oracleW 0).1[1]?).map Prod.snd = some "N/A" ∧
    (get_system_info [] "nope" oracleNA 0).1.map Prod.fst
      = ["hostname", "kernel", "os", "architecture", "uptime", "memory",
         "disk", "cpu"] ∧
    (("hostname", "N/A") ∈ (get_system_info [] "nope" oracleNA 0).1) ∧
    (("hostname", "N/A") : String × String).2 = "N/A" :=
  ⟨rfl,
   ((claim10_theorem pool1 "c1" oracleW 0).2.1 connFresh rfl 0 (by decide)).1
     "o1" "" 1 rfl rfl,
   ((claim10_theorem pool1 "c1" oracleW 0).2.1 connFresh rfl 1 (by decide)).2
     (Or.inr (by
       intro out err el h
       simp [oracleW] at h)),
   (claim10_theorem [] "nope" oracleNA 0).1,
   by decide,
   (claim10_theorem [] "nope" oracleNA 0).2.2 rfl ("hostname", "N/A") (by decide)⟩
